import Mathlib

/-!
Verification of the quickstart-resources demonstration programs: a shallow
embedding of the three `get-colors-for-mood` MCP tool servers (the static-table
variant in `weather-server-typescript/src/index.ts`, the unclamped remote
variant, and the clamped remote variant) and of the orchestrating MCP client
(its conversation transcript, trimming policy, `processQuery` loop, and the
startup/exit control flow of `main`).

Modelling conventions:
- JS `number` inputs at the tool boundary are modelled as `ℚ` (the schemas
  never require integrality); the static handler's `count` is modelled on `Int`
  because `Array.prototype.slice` truncates its bound to an integer.
- The network is an oracle: a `NetworkOutcome` is either a transport failure
  (the `fetch` throw, carrying the JS error message) or a response body,
  given together with the result of `JSON.parse` on it (`none` when the body
  is not valid JSON).  `JSON.parse` itself is external library code.
- A tool handler returns a `ToolResult` whose `content` is a list of text
  items; the TS handlers never throw past the boundary (every branch returns),
  so they embed as total functions.
-/

/-- The parsed shape `\x7b success: boolean; message: string \x7d` that the TS code
casts webhook JSON to (`as ColorResponse`). -/
structure ColorResponse where
  success : Bool
  message : String
deriving DecidableEq

/-- Outcome of the webhook round trip as seen by a handler: either the `fetch`
call threw (transport error with the JS error message), or it produced a raw
body `raw` on which `JSON.parse` either failed (`parsed = none`) or produced a
`ColorResponse` (`parsed = some data`). -/
inductive NetworkOutcome where
  | transportError (msg : String)
  | response (raw : String) (parsed : Option ColorResponse)
deriving DecidableEq

/-- One `\x7b type: "text", text: ... \x7d` content item of a tool result. -/
structure TextContent where
  text : String
deriving DecidableEq

/-- The value a tool handler returns: `\x7b content: [...] \x7d`. -/
structure ToolResult where
  content : List TextContent
deriving DecidableEq

/-! ### String helpers mirroring the JS operations used by the handlers -/

/-- JS `||` on a string with a fallback: the empty string is falsy. -/
def jsOrDefault (s fallback : String) : String :=
  if s = "" then fallback else s

/-- Whether `pat` is a prefix of the given character list (`a == b` per char). -/
def charListStartsWith : List Char → List Char → Bool
  | [], _ => true
  | _ :: _, [] => false
  | a :: as, b :: bs => a == b && charListStartsWith as bs

/-- Whether `pat` occurs contiguously in the given character list. -/
def charListContains (pat : List Char) : List Char → Bool
  | [] => charListStartsWith pat []
  | c :: cs => charListStartsWith pat (c :: cs) || charListContains pat cs

/-- JS `String.prototype.includes`: `strContains s pat` iff `pat` occurs in `s`. -/
def strContains (s pat : String) : Bool := charListContains pat.data s.data

/-- JS `String.prototype.endsWith`. -/
def strEndsWith (s suffix : String) : Bool :=
  charListStartsWith suffix.data.reverse s.data.reverse

/-! ### Declared input schemas (zod) for `count` in each variant

Static variant: `z.number()`;
unclamped remote variant: `z.number().min(1).default(1)`;
clamped remote variant: `z.number().min(1).max(2).default(1)`. -/

/-- Static-table variant: `count: z.number()` — any number validates. -/
def countValidStatic (_ : ℚ) : Bool := true

/-- Unclamped remote variant: `count: z.number().min(1)`. -/
def countValidUnclamped (c : ℚ) : Bool := decide (1 ≤ c)

/-- Clamped remote variant: `count: z.number().min(1).max(2)`. -/
def countValidClamped (c : ℚ) : Bool := decide (1 ≤ c) && decide (c ≤ 2)

/-- zod `.default(1)`: a missing `count` argument becomes `1` before
validation. -/
def applyCountDefault (count : Option ℚ) : ℚ := count.getD 1

/-! ### Static-table variant (`weather-server-typescript/src/index.ts`) -/

/-- The fixed `moodColors` table: `(name, hex)` pairs in source order. -/
def moodColors : List (String × String) :=
  [("Coral Red", "#FF6B6B"),
   ("Ocean Turquoise", "#4ECDC4"),
   ("Summer Sky Blue", "#45B7D1"),
   ("Fresh Sage", "#96CEB4"),
   ("Warm Sand", "#FFEEAD")]

/-- `` `${color.name} (${color.hex})` `` -/
def formatColor (c : String × String) : String := c.1 ++ " (" ++ c.2 ++ ")"

/-- `moodColors.slice(0, Math.min(count, moodColors.length))`: the colors the
static handler selects.  `Int.toNat` matches JS `slice` clamping a negative
bound to `0`. -/
def staticSelectedColors (count : Int) : List (String × String) :=
  moodColors.take (min count (moodColors.length : Int)).toNat

/-- The static-table `get-colors-for-mood` handler: formats the selected
colors, one per line, under a `Colors for <mood> mood:` header. -/
def staticGetColors (mood : String) (count : Int) : ToolResult :=
  let colorList := String.intercalate "\n" ((staticSelectedColors count).map formatColor)
  ⟨[⟨"Colors for " ++ mood ++ " mood:\n" ++ colorList⟩]⟩

/-! ### Unclamped remote variant (`getColorsForMood`) -/

/-- The `colorCount` field the unclamped variant puts in the outbound webhook
body: the input `count` forwarded verbatim. -/
def unclampedOutboundCount (count : ℚ) : ℚ := count

/-- The unclamped remote `get-colors-for-mood` handler `getColorsForMood`:
on transport error the outer catch returns `error.message || "Unknown error
occurred"`; on a non-JSON body the inner catch returns `Invalid response from
color API: <raw>`; otherwise it always returns the API's `message`, whether
`success` is true or false. -/
def getColorsForMood (mood : String) (count : ℚ) (net : NetworkOutcome) : ToolResult :=
  match net with
  | .transportError msg => ⟨[⟨jsOrDefault msg "Unknown error occurred"⟩]⟩
  | .response raw none => ⟨[⟨"Invalid response from color API: " ++ raw⟩]⟩
  | .response _ (some data) => ⟨[⟨data.message⟩]⟩

/-! ### Clamped remote variant -/

/-- `Math.min(count, 2)` — the `safeCount` sent outbound by the clamped
variant. -/
def clampedSafeCount (count : ℚ) : ℚ := min count 2

/-- The `colorCount` of the outbound webhook request of the clamped variant at
the tool boundary: the zod default is applied, the schema
(`min(1).max(2)`) validates, and only then does the handler run and send
`Math.min(count, 2)`; `none` means validation rejected the call and no request
was sent. -/
def clampedOutboundCount (count : Option ℚ) : Option ℚ :=
  let c := applyCountDefault count
  if countValidClamped c then some (clampedSafeCount c) else none

/-- The clamped variant's catch block: a message mentioning the count limit
maps to one fixed apology, everything else to the other. -/
def clampedErrorText (msg : String) : String :=
  if strContains msg "maximum color count" then
    "Sorry, I can only provide up to 2 colors at a time. Please try again with a smaller number."
  else
    "Sorry, I couldn\x27t get color suggestions at the moment. Please try again."

/-- The clamped remote `get-colors-for-mood` handler: a non-JSON body or a
`success:false` payload is thrown and converted by the catch block into one of
the two fixed apology strings; a successful payload is formatted under a
`Colors for <mood> mood:` header. -/
def clampedGetColors (mood : String) (count : ℚ) (net : NetworkOutcome) : ToolResult :=
  match net with
  | .transportError msg => ⟨[⟨clampedErrorText msg⟩]⟩
  | .response raw none =>
      ⟨[⟨clampedErrorText ("Invalid response from color API: " ++ raw)⟩]⟩
  | .response _ (some data) =>
      if data.success then
        ⟨[⟨"Colors for " ++ mood ++ " mood:\n" ++ data.message⟩]⟩
      else
        ⟨[⟨clampedErrorText (jsOrDefault data.message "API request failed")⟩]⟩

/-! ### Orchestrating client (`MCPClient`)

The transcript is a list of chat messages; the completion service and the
Tool Host are oracles supplied as arguments to `processQuery`. -/

/-- Chat message roles used by the client. -/
inductive Role where
  | system
  | user
  | assistant
  | tool
deriving DecidableEq

/-- One tool call named by a completion response: `id`, `function.name`, and
the JSON `function.arguments` string. -/
structure ToolCall where
  id : String
  name : String
  arguments : String
deriving DecidableEq

/-- One transcript entry (`ChatCompletionMessageParam`): role, content, and —
for the records `processQuery` appends around a tool round trip — an optional
`tool_call_id` and a `tool_calls` list. -/
structure Message where
  role : Role
  content : String
  toolCallId : Option String
  toolCalls : List ToolCall
deriving DecidableEq

/-- `\x7b role: "user", content \x7d` -/
def userMsg (content : String) : Message := ⟨.user, content, none, []⟩

/-- `\x7b role: "assistant", content \x7d` -/
def assistantMsg (content : String) : Message := ⟨.assistant, content, none, []⟩

/-- `\x7b role: "assistant", content: "", tool_calls: [toolCall] \x7d` -/
def assistantToolCallMsg (tc : ToolCall) : Message := ⟨.assistant, "", none, [tc]⟩

/-- `\x7b role: "tool", tool_call_id: toolCall.id, content: result \x7d` -/
def toolMsg (tc : ToolCall) (result : String) : Message := ⟨.tool, result, some tc.id, []⟩

/-- `SYSTEM_PROMPT` -/
def SYSTEM_PROMPT : String := "You are a helpful assistant."

/-- The system message the constructor pushes first. -/
def systemMessage : Message := ⟨.system, SYSTEM_PROMPT, none, []⟩

/-- `conversationHistory` right after the `MCPClient` constructor ran. -/
def initialConversationHistory : List Message := [systemMessage]

/-- JS `arr.slice(-k)` for a nonnegative `k`: the last `k` elements — except
that `slice(-0)` is `slice(0)`, the whole array. -/
def jsSliceNeg (k : Nat) (xs : List α) : List α :=
  if k = 0 then xs else xs.drop (xs.length - k)

/-- `trimConversationHistory` with `maxHistoryLength = M` (the field is fixed
at `10` in the source): when the transcript is longer than `2*M + 1` it becomes
`[conversationHistory[0]] ++ conversationHistory.slice(-(M * 2))`. -/
def trimConversationHistory (M : Nat) (hist : List Message) : List Message :=
  if hist.length > M * 2 + 1 then
    hist.take 1 ++ jsSliceNeg (M * 2) hist
  else hist

/-- A completion response as `processQuery` reads it: `choice.message.content`
(possibly absent) and `choice.message.tool_calls` (absent modelled as `[]`). -/
structure Completion where
  content : Option String
  toolCalls : List ToolCall
deriving DecidableEq

/-- What one `processQuery` call produces: the updated `conversationHistory`,
the `finalText` fragments joined for the user, and the list of tool
invocations actually sent to the Tool Host via `mcp.callTool`, in order. -/
structure QueryResult where
  history : List Message
  finalText : List String
  invocations : List ToolCall
deriving DecidableEq

/-- The `for (const toolCall of choice.message.tool_calls)` loop body of
`processQuery`: invoke the tool, record the `[Calling tool ...]` fragment,
append the assistant tool-call record and the tool result to the history, ask
for a follow-up completion (`followUp i` is the content of the `i`-th
follow-up response, `none` when absent or empty), and append its content when
truthy. -/
def runToolCalls (toolResult : ToolCall → String) (followUp : Nat → Option String) :
    Nat → List ToolCall → List Message → List String → List ToolCall →
    List Message × List String × List ToolCall
  | _, [], hist, texts, invs => (hist, texts, invs)
  | i, tc :: rest, hist, texts, invs =>
    let result := toolResult tc
    let texts := texts ++ ["[Calling tool " ++ tc.name ++ " with args " ++ tc.arguments ++ "]"]
    let hist := hist ++ [assistantToolCallMsg tc, toolMsg tc result]
    let next :=
      match followUp i with
      | some c => if c = "" then (hist, texts) else (hist ++ [assistantMsg c], texts ++ [c])
      | none => (hist, texts)
    runToolCalls toolResult followUp (i + 1) rest next.1 next.2 (invs ++ [tc])

/-- `processQuery`: append the user's query; if the first completion
(`resp`) has truthy content, record it and append an assistant message; run
every tool call `resp` names through `runToolCalls`; finally apply
`trimConversationHistory`. -/
def processQuery (M : Nat) (hist : List Message) (query : String)
    (resp : Completion) (toolResult : ToolCall → String)
    (followUp : Nat → Option String) : QueryResult :=
  let hist := hist ++ [userMsg query]
  let afterContent :=
    match resp.content with
    | some c => if c = "" then (hist, ([] : List String)) else (hist ++ [assistantMsg c], [c])
    | none => (hist, [])
  let r := runToolCalls toolResult followUp 0 resp.toolCalls afterContent.1 afterContent.2 []
  ⟨trimConversationHistory M r.1, r.2.1, r.2.2⟩

/-! ### Client startup (`connectToServer` and `main`) -/

/-- `isJs || isPy` check on the server script path. -/
def scriptTypeOk (path : String) : Bool :=
  strEndsWith path ".js" || strEndsWith path ".py"

/-- What `connectToServer` logs and whether it throws.  The MCP connection and
tool listing are an oracle `connectOutcome` (`.error e` meaning the underlying
call threw with message `e`).  A bad extension throws before connecting; every
throw is logged as `Failed to connect to MCP server: ...` and re-thrown. -/
def connectToServer (path : String) (connectOutcome : Except String Unit) :
    List String × Except String Unit :=
  if !scriptTypeOk path then
    (["Failed to connect to MCP server: Server script must be a .js or .py file"],
     .error "Server script must be a .js or .py file")
  else
    match connectOutcome with
    | .error e => (["Failed to connect to MCP server: " ++ e], .error e)
    | .ok _ => (["Connected to server with tools: ..."], .ok ())

/-- The observable outcome of running the client process: its log lines and
its exit code. -/
structure ProgramResult where
  logs : List String
  exitCode : Nat
deriving DecidableEq

/-- `main`: fewer than 3 argv entries prints usage and returns (normal exit,
code 0); otherwise it connects and runs the chat loop inside
`try ... finally \x7b await cleanup(); process.exit(0) \x7d`, so every path through
the `try` — including a `connectToServer` throw — reaches `process.exit(0)`.
`chatLogs` stands for whatever the chat loop printed; `cleanup` is observed
not to throw. -/
def clientMain (argv : List String) (connectOutcome : Except String Unit)
    (chatLogs : List String) : ProgramResult :=
  if argv.length < 3 then
    ⟨["Usage: node build/index.js <path_to_server_script>"], 0⟩
  else
    let c := connectToServer (argv.getD 2 "") connectOutcome
    match c.2 with
    | .error _ => ⟨c.1, 0⟩
    | .ok _ => ⟨c.1 ++ chatLogs, 0⟩

/-! ### Helper lemmas -/

lemma charListStartsWith_refl (l : List Char) : charListStartsWith l l = true := by
  induction l with
  | nil => rfl
  | cons a as ih => simp [charListStartsWith, ih]

lemma charListContains_suffix (pre pat : List Char) :
    charListContains pat (pre ++ pat) = true := by
  induction pre with
  | nil =>
    cases pat with
    | nil => rfl
    | cons c cs => simp [charListContains, charListStartsWith_refl]
  | cons a as ih => simp [charListContains, ih]

lemma strContains_append_right (pre raw : String) :
    strContains (pre ++ raw) raw = true := by
  show charListContains raw.data (pre ++ raw).data = true
  rw [String.data_append]
  exact charListContains_suffix _ _

/-! ### Claims about the tool variants -/

/-- Claim C3 counterexample: a non-JSON webhook body `"NOTJSON"` makes the
clamped remote variant return one of its fixed apology strings, which does not
contain the raw response body — refuting ``each remote tool variant returns a
text result whose text contains the raw response body.'' -/
theorem c3_counterexample :
    (clampedGetColors "calm" 1 (.response "NOTJSON" none)).content =
      [⟨"Sorry, I couldn\x27t get color suggestions at the moment. Please try again."⟩] ∧
    strContains "Sorry, I couldn\x27t get color suggestions at the moment. Please try again."
      "NOTJSON" = false := by
  constructor <;> decide

/-- Claim C3 (amended): for every non-JSON webhook body both remote variants
return a normal single text result; the unclamped variant's text is
`Invalid response from color API: <raw>` and hence contains the raw body,
while the clamped variant maps the failure through its catch block to one of
two fixed apology strings (which need not contain the raw body). -/
theorem c3_invalid_json_text_results (mood : String) (count : ℚ) (raw : String) :
    (getColorsForMood mood count (.response raw none)).content =
      [⟨"Invalid response from color API: " ++ raw⟩] ∧
    strContains ("Invalid response from color API: " ++ raw) raw = true ∧
    (clampedGetColors mood count (.response raw none)).content =
      [⟨clampedErrorText ("Invalid response from color API: " ++ raw)⟩] ∧
    (∀ m : String,
      clampedErrorText m =
        "Sorry, I can only provide up to 2 colors at a time. Please try again with a smaller number." ∨
      clampedErrorText m =
        "Sorry, I couldn\x27t get color suggestions at the moment. Please try again.") := by
  refine ⟨rfl, strContains_append_right _ _, rfl, ?_⟩
  intro m
  unfold clampedErrorText
  split
  · exact Or.inl rfl
  · exact Or.inr rfl

/-- Claim C4 counterexample: the static variant's schema (`z.number()`)
accepts `count = 0`, which is neither `≥ 1` nor rejected, and the unclamped
variant's schema accepts the non-integer `3/2` — refuting ``every variant's
schema requires count to be an integer at least 1.'' -/
theorem c4_counterexample :
    countValidStatic 0 = true ∧ ¬ (1 ≤ (0 : ℚ)) ∧
    countValidUnclamped (3 / 2) = true ∧ ¬ (∃ n : ℤ, (3 / 2 : ℚ) = (n : ℚ)) := by
  refine ⟨rfl, by norm_num, ?_, ?_⟩
  · simp only [countValidUnclamped, decide_eq_true_eq]
    norm_num
  · rintro ⟨n, hn⟩
    have h3 : (3 : ℚ) = 2 * (n : ℚ) := by linarith
    have h3z : (3 : ℤ) = 2 * n := by exact_mod_cast h3
    omega

/-- Claim C4 (amended): the declared schemas bound `count` as follows — the
remote variants require `count ≥ 1` (the clamped one additionally
`count ≤ 2`), the static variant's schema accepts any number, and no variant
requires integrality. -/
theorem c4_schema_count_bounds (c : ℚ) :
    countValidStatic c = true ∧
    (countValidUnclamped c = true ↔ 1 ≤ c) ∧
    (countValidClamped c = true ↔ (1 ≤ c ∧ c ≤ 2)) := by
  refine ⟨rfl, ?_, ?_⟩ <;>
    simp [countValidUnclamped, countValidClamped]

/-- Claim C7: for every `count ≥ 1` the static-table variant selects exactly
`min count 5` colors — the first entries of `moodColors` in table order — and
renders them as `<name> (<hex>)` lines after the `Colors for <mood> mood:`
header; in particular mood `happy` with `count = 1` yields
`Colors for happy mood:\nCoral Red (#FF6B6B)`. -/
theorem c7_staticGetColors_spec (mood : String) (count : Int) (h : 1 ≤ count) :
    ((staticSelectedColors count).length : Int) = min count 5 ∧
    staticSelectedColors count = moodColors.take (min count 5).toNat ∧
    (staticGetColors mood count).content =
      [⟨"Colors for " ++ mood ++ " mood:\n" ++
        String.intercalate "\n" ((staticSelectedColors count).map formatColor)⟩] ∧
    (staticGetColors "happy" 1).content =
      [⟨"Colors for happy mood:\nCoral Red (#FF6B6B)"⟩] := by
  refine ⟨?_, rfl, rfl, by decide⟩
  have hlen : (staticSelectedColors count).length = min ((min count 5).toNat) 5 := by
    simp [staticSelectedColors, moodColors]
  rw [hlen]
  omega

/-- Claim C7 witness: instantiation at mood `happy`, `count = 3`. -/
theorem c7_staticGetColors_spec_witness :
    ((staticSelectedColors 3).length : Int) = min 3 5 :=
  (c7_staticGetColors_spec "happy" 3 (by decide)).1

/-- Claim C8: whenever the clamped remote variant actually sends a webhook
request (the zod default and `min(1).max(2)` validation admit the call), the
outbound `colorCount` — `Math.min(count, 2)` — lies in `[1, 2]`. -/
theorem c8_clampedOutboundCount_in_range (count : Option ℚ) (c : ℚ)
    (h : clampedOutboundCount count = some c) : 1 ≤ c ∧ c ≤ 2 := by
  unfold clampedOutboundCount at h
  dsimp only at h
  split at h
  · next hv =>
    simp only [countValidClamped, Bool.and_eq_true, decide_eq_true_eq] at hv
    obtain ⟨h1, _⟩ := hv
    obtain rfl : clampedSafeCount (applyCountDefault count) = c := by
      injection h
    exact ⟨le_min h1 (by norm_num), min_le_right _ _⟩
  · exact absurd h (by simp)

/-- Claim C8 witness: instantiation at input `count = 2`. -/
theorem c8_clampedOutboundCount_in_range_witness : 1 ≤ (2 : ℚ) ∧ (2 : ℚ) ≤ 2 :=
  c8_clampedOutboundCount_in_range (some 2) 2
    (by norm_num [clampedOutboundCount, applyCountDefault, countValidClamped, clampedSafeCount])

/-- Claim C9: every tool variant's handler is total at its boundary — for
every input and every outcome of the network call (transport failure,
unparseable body, `success:false` payload) it returns exactly one text
content item and never throws past the tool boundary (the handlers embed as
total functions into `ToolResult`). -/
theorem c9_handlers_single_text_result (mood : String) (count : ℚ) (ic : Int)
    (net : NetworkOutcome) :
    (staticGetColors mood ic).content.length = 1 ∧
    (getColorsForMood mood count net).content.length = 1 ∧
    (clampedGetColors mood count net).content.length = 1 := by
  refine ⟨rfl, ?_, ?_⟩
  · cases net with
    | transportError m => rfl
    | response raw p => cases p <;> rfl
  · cases net with
    | transportError m => rfl
    | response raw p =>
      cases p with
      | none => rfl
      | some d => cases hd : d.success <;> simp [clampedGetColors, hd]

/-- Claim C10: in the unclamped remote variant every JSON-parsing webhook
response is answered with exactly the response's `message` field — the
`success` flag is never inspected — whereas the clamped variant converts a
`success:false` payload into a fixed error string via its catch block. -/
theorem c10_unclamped_returns_message (mood : String) (count : ℚ) (raw : String)
    (data : ColorResponse) :
    (getColorsForMood mood count (.response raw (some data))).content =
      [⟨data.message⟩] ∧
    (data.success = false →
      (clampedGetColors mood count (.response raw (some data))).content =
        [⟨clampedErrorText (jsOrDefault data.message "API request failed")⟩]) := by
  constructor
  · rfl
  · intro hs
    simp [clampedGetColors, hs]

/-- Claim C10 witness: instantiation at a `success:false` payload with message
`msg`. -/
theorem c10_unclamped_returns_message_witness :
    (getColorsForMood "sad" 1 (.response "body" (some ⟨false, "msg"⟩))).content =
      [⟨"msg"⟩] ∧
    (clampedGetColors "sad" 1 (.response "body" (some ⟨false, "msg"⟩))).content =
      [⟨clampedErrorText (jsOrDefault "msg" "API request failed")⟩] :=
  ⟨(c10_unclamped_returns_message "sad" 1 "body" ⟨false, "msg"⟩).1,
   (c10_unclamped_returns_message "sad" 1 "body" ⟨false, "msg"⟩).2 rfl⟩

/-! ### Claims about the orchestrating client -/

lemma head?_append_of_ne_nil {α : Type} (l s : List α) (h : l ≠ []) :
    (l ++ s).head? = l.head? := by
  cases l with
  | nil => exact absurd rfl h
  | cons a as => rfl

lemma trimConversationHistory_head? (M : Nat) (l : List Message) :
    (trimConversationHistory M l).head? = l.head? := by
  unfold trimConversationHistory
  split
  · cases l with
    | nil => simp [jsSliceNeg]
    | cons a as => rfl
  · rfl

lemma runToolCalls_invocations (toolResult : ToolCall → String)
    (followUp : Nat → Option String) :
    ∀ (tcs : List ToolCall) (i : Nat) (hist : List Message) (texts : List String)
      (invs : List ToolCall),
      (runToolCalls toolResult followUp i tcs hist texts invs).2.2 = invs ++ tcs := by
  intro tcs
  induction tcs with
  | nil => intro i hist texts invs; simp [runToolCalls]
  | cons tc rest ih =>
    intro i hist texts invs
    simp only [runToolCalls]
    rw [ih]
    simp

lemma runToolCalls_history_extends (toolResult : ToolCall → String)
    (followUp : Nat → Option String) :
    ∀ (tcs : List ToolCall) (i : Nat) (hist : List Message) (texts : List String)
      (invs : List ToolCall),
      ∃ s, (runToolCalls toolResult followUp i tcs hist texts invs).1 = hist ++ s := by
  intro tcs
  induction tcs with
  | nil => intro i hist texts invs; exact ⟨[], by simp [runToolCalls]⟩
  | cons tc rest ih =>
    intro i hist texts invs
    simp only [runToolCalls]
    rcases hfu : followUp i with _ | c
    · simp only [hfu]
      obtain ⟨s, hs⟩ := ih (i + 1)
        (hist ++ [assistantToolCallMsg tc, toolMsg tc (toolResult tc)])
        (texts ++ ["[Calling tool " ++ tc.name ++ " with args " ++ tc.arguments ++ "]"])
        (invs ++ [tc])
      exact ⟨[assistantToolCallMsg tc, toolMsg tc (toolResult tc)] ++ s,
        by rw [hs, List.append_assoc]⟩
    · simp only [hfu]
      by_cases hc : c = ""
      · simp only [hc, if_pos]
        obtain ⟨s, hs⟩ := ih (i + 1)
          (hist ++ [assistantToolCallMsg tc, toolMsg tc (toolResult tc)])
          (texts ++ ["[Calling tool " ++ tc.name ++ " with args " ++ tc.arguments ++ "]"])
          (invs ++ [tc])
        exact ⟨[assistantToolCallMsg tc, toolMsg tc (toolResult tc)] ++ s,
          by rw [hs, List.append_assoc]⟩
      · simp only [if_neg hc]
        obtain ⟨s, hs⟩ := ih (i + 1)
          (hist ++ [assistantToolCallMsg tc, toolMsg tc (toolResult tc)] ++ [assistantMsg c])
          (texts ++ ["[Calling tool " ++ tc.name ++ " with args " ++ tc.arguments ++ "]"] ++ [c])
          (invs ++ [tc])
        refine ⟨[assistantToolCallMsg tc, toolMsg tc (toolResult tc)] ++ [assistantMsg c] ++ s, ?_⟩
        rw [hs, List.append_assoc, List.append_assoc, List.append_assoc]

/-- Claim C1 counterexample: a completion response naming two tool calls makes
`processQuery` invoke the Tool Host for both of them — refuting ``only the
first requested tool call is executed.'' -/
theorem c1_counterexample :
    (processQuery 10 initialConversationHistory "q"
      ⟨none, [⟨"1", "get-colors-for-mood", "a1"⟩, ⟨"2", "get-colors-for-mood", "a2"⟩]⟩
      (fun _ => "res") (fun _ => none)).invocations =
      [⟨"1", "get-colors-for-mood", "a1"⟩, ⟨"2", "get-colors-for-mood", "a2"⟩] ∧
    (processQuery 10 initialConversationHistory "q"
      ⟨none, [⟨"1", "get-colors-for-mood", "a1"⟩, ⟨"2", "get-colors-for-mood", "a2"⟩]⟩
      (fun _ => "res") (fun _ => none)).invocations ≠
      [⟨"1", "get-colors-for-mood", "a1"⟩] := by
  constructor <;> decide

/-- Claim C1 (amended): `processQuery` iterates over every tool call of the
completion response and executes each of them in order — the invocations sent
to the Tool Host are exactly `resp.toolCalls`, not just the first one. -/
theorem c1_processQuery_executes_all_toolCalls (M : Nat) (hist : List Message)
    (query : String) (resp : Completion) (toolResult : ToolCall → String)
    (followUp : Nat → Option String) :
    (processQuery M hist query resp toolResult followUp).invocations = resp.toolCalls := by
  unfold processQuery
  dsimp only
  rw [runToolCalls_invocations]
  simp

/-- Claim C5 counterexample: with `M = 0` a transcript of length `2` exceeds
`2*M + 1 = 1`, but JS `slice(-0)` is `slice(0)` — the whole array — so the
trimmed transcript is the first element followed by the entire original
transcript, not by the last `0` messages; this refutes the claim at `M = 0`. -/
theorem c5_counterexample :
    trimConversationHistory 0 [systemMessage, userMsg "a"] =
      [systemMessage, systemMessage, userMsg "a"] ∧
    trimConversationHistory 0 [systemMessage, userMsg "a"] ≠ [systemMessage] := by
  constructor <;> decide

/-- Claim C5 (amended): for every transcript and every `M ≥ 1` (which covers
the default `M = 10`), `trimConversationHistory` leaves a transcript of length
at most `2*M + 1` unchanged, and replaces a longer one with its first element
followed by exactly its last `2*M` messages in their original order. -/
theorem c5_trimConversationHistory_spec (M : Nat) (hist : List Message) (hM : 1 ≤ M) :
    (hist.length ≤ M * 2 + 1 → trimConversationHistory M hist = hist) ∧
    (M * 2 + 1 < hist.length →
      trimConversationHistory M hist =
        hist.take 1 ++ hist.drop (hist.length - M * 2) ∧
      (hist.drop (hist.length - M * 2)).length = M * 2) := by
  constructor
  · intro h
    unfold trimConversationHistory
    rw [if_neg (by omega)]
  · intro h
    unfold trimConversationHistory jsSliceNeg
    rw [if_pos (by omega), if_neg (by omega)]
    refine ⟨rfl, ?_⟩
    rw [List.length_drop]
    omega

/-- Claim C5 witness: the default `M = 10` leaves a short transcript
unchanged. -/
theorem c5_trimConversationHistory_spec_witness :
    trimConversationHistory 10 [systemMessage] = [systemMessage] :=
  (c5_trimConversationHistory_spec 10 [systemMessage] (by decide)).1 (by decide)

/-- Claim C6: the first transcript element is invariant across all client
operations — the constructor makes it the fixed system instruction,
`trimConversationHistory` never changes the head of any transcript, and
`processQuery` (which only appends and then trims) preserves the head of every
nonempty transcript. -/
theorem c6_system_message_invariant :
    initialConversationHistory.head? = some systemMessage ∧
    (∀ (M : Nat) (hist : List Message),
      (trimConversationHistory M hist).head? = hist.head?) ∧
    (∀ (M : Nat) (hist : List Message) (query : String) (resp : Completion)
      (toolResult : ToolCall → String) (followUp : Nat → Option String),
      hist ≠ [] →
      (processQuery M hist query resp toolResult followUp).history.head? = hist.head?) := by
  refine ⟨rfl, trimConversationHistory_head?, ?_⟩
  intro M hist query resp toolResult followUp h
  unfold processQuery
  dsimp only
  rw [trimConversationHistory_head?]
  rcases hrc : resp.content with _ | c
  · simp only [hrc]
    obtain ⟨s, hs⟩ := runToolCalls_history_extends toolResult followUp resp.toolCalls 0
      (hist ++ [userMsg query]) [] []
    rw [hs, List.append_assoc]
    exact head?_append_of_ne_nil _ _ h
  · simp only [hrc]
    by_cases hc : c = ""
    · simp only [hc, if_pos]
      obtain ⟨s, hs⟩ := runToolCalls_history_extends toolResult followUp resp.toolCalls 0
        (hist ++ [userMsg query]) [] []
      rw [hs, List.append_assoc]
      exact head?_append_of_ne_nil _ _ h
    · simp only [if_neg hc]
      obtain ⟨s, hs⟩ := runToolCalls_history_extends toolResult followUp resp.toolCalls 0
        (hist ++ [userMsg query] ++ [assistantMsg c]) [c] []
      rw [hs, List.append_assoc, List.append_assoc]
      exact head?_append_of_ne_nil _ _ h

/-- Claim C6 witness: one `processQuery` turn on the freshly constructed
transcript keeps the system message first. -/
theorem c6_system_message_invariant_witness :
    (processQuery 10 initialConversationHistory "hi" ⟨some "ok", []⟩
      (fun _ => "") (fun _ => none)).history.head? =
      initialConversationHistory.head? :=
  c6_system_message_invariant.2.2 10 initialConversationHistory "hi" ⟨some "ok", []⟩
    (fun _ => "") (fun _ => none) (by decide)

/-- Claim C2 counterexample: with a valid script path and a failing MCP
connection, the client logs the failure but the `finally` block's
`process.exit(0)` makes the process exit with code `0` — refuting
``terminates with a non-zero process exit code.'' -/
theorem c2_counterexample :
    (clientMain ["node", "build/index.js", "server.js"] (.error "boom") []).exitCode = 0 ∧
    (clientMain ["node", "build/index.js", "server.js"] (.error "boom") []).logs =
      ["Failed to connect to MCP server: boom"] := by
  constructor <;> decide

/-- Claim C2 (amended): if connecting to the Tool Host at startup fails, the
client logs `Failed to connect to MCP server: ...` and terminates — but with
exit code `0`, because `main`'s `finally` block calls `process.exit(0)` before
the re-thrown error can surface. -/
theorem c2_clientMain_connect_failure (argv : List String) (e : String)
    (chatLogs : List String) (h : 3 ≤ argv.length) :
    ∃ m, (clientMain argv (.error e) chatLogs).logs =
        ["Failed to connect to MCP server: " ++ m] ∧
      (clientMain argv (.error e) chatLogs).exitCode = 0 := by
  rcases argv with _ | ⟨a0, _ | ⟨a1, _ | ⟨a2, rest⟩⟩⟩
  · simp at h
  · simp at h
  · simp at h
  · have h3 : ¬ ((a0 :: a1 :: a2 :: rest).length < 3) := by
      simp
    by_cases hs : scriptTypeOk a2 = true
    · refine ⟨e, ?_, ?_⟩ <;>
      · simp [clientMain, connectToServer, h3, hs, List.getD_cons_succ, List.getD_cons_zero]
        rw [if_neg (by omega)]
    · refine ⟨"Server script must be a .js or .py file", ?_, ?_⟩ <;>
      · simp [clientMain, connectToServer, h3, hs, List.getD_cons_succ, List.getD_cons_zero]
        rw [if_neg (by omega)]

/-- Claim C2 witness: instantiation at a concrete failing startup. -/
theorem c2_clientMain_connect_failure_witness :
    ∃ m, (clientMain ["node", "build/index.js", "server.js"] (.error "boom") []).logs =
        ["Failed to connect to MCP server: " ++ m] ∧
      (clientMain ["node", "build/index.js", "server.js"] (.error "boom") []).exitCode = 0 :=
  c2_clientMain_connect_failure ["node", "build/index.js", "server.js"] "boom" [] (by decide)
